import Mathlib

/-!
Verification development for the esp32-gps-follower repository.

Server side (Server/index.js): the latest-GPS fix state, the `saveLatestGPS`
reconciler, the `/receivedata` ingest endpoint with its `checkKey` guard, the
`/api/latest-gps` read endpoint backed by `loadLatestGPS`, and the `/wifi`
upsert handler.

Client side (Server/public/tracker.js): the viewer's connection-status
classification (`updateConnectionStatus` composed with `updateGPSData`).

Device side (ESP32/client.c): the WiFi connection logic `connectWiFi`,
`fetchWifiList` and the `setup` boot sequence, modelled as functions over an
oracle telling which connection attempts succeed, producing a trace of
emitted events.

JavaScript numbers are modelled as `JsVal`: `null`, `NaN`, or a rational.
Query-string values are modelled at the granularity `parseFloat`/`parseInt`
observe them: the empty string, a malformed string (parses to NaN), or a
numeric string carrying the rational it parses to. Timestamps (ISO strings
produced by `new Date().toISOString()`) are modelled as naturals ordered as
the strings are.
-/

namespace GpsFollower

/-- A JavaScript value in a numeric field: `null`, `NaN`, or a number
(modelled as a rational). -/
inductive JsVal where
  | null
  | nan
  | num (q : ℚ)
deriving DecidableEq, Repr

/-- A query-string value as seen by `parseFloat`/`parseInt`: empty string,
a string that does not parse (yields NaN), or a string parsing to `q`. -/
inductive QStr where
  | empty
  | malformed
  | numStr (q : ℚ)
deriving DecidableEq, Repr

/-- `parseFloat` applied to a possibly-undefined query value:
`parseFloat(undefined)`, `parseFloat('')` and a malformed string all give
NaN. -/
def parseFloatQ : Option QStr → JsVal
  | some (.numStr q) => .num q
  | _ => .nan

/-- `parseFloat` applied to a present string. -/
def parseFloatS : QStr → JsVal
  | .numStr q => .num q
  | _ => .nan

/-- JS `parseInt` truncates the fractional part toward zero. -/
def jsTrunc (q : ℚ) : ℤ := if 0 ≤ q then ⌊q⌋ else ⌈q⌉

/-- `parseInt` applied to a present string. -/
def parseIntS : QStr → JsVal
  | .numStr q => .num (jsTrunc q : ℚ)
  | _ => .nan

/-- The extended `latestGPSData` structure of Server/index.js. -/
structure GPSData where
  lat : JsVal
  lng : JsVal
  speed : JsVal
  alt : JsVal
  fix : Bool
  sats : JsVal
  hdop : JsVal
  lastPacketTimestamp : ℕ
  lastFixTimestamp : Option ℕ
  timestamp : Option ℕ
deriving DecidableEq, Repr

/-- The packet object built by the `/receivedata` handler and passed to
`saveLatestGPS`. `sats`/`hdop` are `none` when the query field was absent
(JS `undefined`), `some .null` when it was the empty string. -/
structure Packet where
  fix : Bool
  lat : JsVal
  lng : JsVal
  speed : JsVal
  alt : JsVal
  sats : Option JsVal
  hdop : Option JsVal
deriving DecidableEq, Repr

/-- The freshly initialized `latestGPSData` record created by
`saveLatestGPS` when no state exists yet. -/
def bootstrapGPSData (now : ℕ) : GPSData :=
  { lat := .null, lng := .null, speed := .null, alt := .null
    fix := false, sats := .null, hdop := .null
    lastPacketTimestamp := now, lastFixTimestamp := none, timestamp := none }

/-- `saveLatestGPS` (Server/index.js, lines 57-98) as a pure state
transition: initialize on first call, stamp `lastPacketTimestamp` and `fix`
on every packet, overwrite `sats`/`hdop` only when present in the packet,
and overwrite position plus `lastFixTimestamp`/`timestamp` only on a fix.
The durable `writeFileSync` is modelled at the endpoint level. -/
def saveLatestGPS (prior : Option GPSData) (p : Packet) (now : ℕ) : GPSData :=
  let base := prior.getD (bootstrapGPSData now)
  let s1 := { base with lastPacketTimestamp := now, fix := p.fix }
  let s2 := { s1 with sats := (p.sats).getD s1.sats, hdop := (p.hdop).getD s1.hdop }
  if p.fix then
    { s2 with lat := p.lat, lng := p.lng, speed := p.speed, alt := p.alt
              lastFixTimestamp := some now, timestamp := some now }
  else s2

/-- The query string of a `/receivedata` request. Absent parameters are
`none` (JS `undefined`). -/
structure Query where
  key : Option String
  fix : Option String
  lat : Option QStr
  lng : Option QStr
  speed : Option QStr
  alt : Option QStr
  sats : Option QStr
  hdop : Option QStr
deriving Repr

/-- `const isFix = fix === 'true' || fix === '1';` -/
def isFixOf (q : Query) : Bool :=
  q.fix == some "true" || q.fix == some "1"

/-- The packet object the `/receivedata` handler constructs from the query
and the current in-memory state (lines 165-173): position fields are parsed
only on a fix and otherwise carried over via `latestGPSData?.lat ?? null`;
`sats`/`hdop` are passed through only when present, with the empty string
mapped to `null`. -/
def packetOf (q : Query) (mem : Option GPSData) : Packet :=
  let isFix := isFixOf q
  { fix := isFix
    lat := if isFix then parseFloatQ q.lat else (mem.map (·.lat)).getD .null
    lng := if isFix then parseFloatQ q.lng else (mem.map (·.lng)).getD .null
    speed := if isFix then parseFloatQ q.speed else (mem.map (·.speed)).getD .null
    alt := if isFix then parseFloatQ q.alt else (mem.map (·.alt)).getD .null
    sats := q.sats.map (fun s => if s = .empty then .null else parseIntS s)
    hdop := q.hdop.map (fun s => if s = .empty then .null else parseFloatS s) }

/-- Response of the `/receivedata` endpoint: `res.json({status:'ok', fix})`
or the 403 \x7bInvalid key\x7d rejection from `checkKey`. The handler has no
other exit. -/
inductive IngestResponse where
  | ok (fix : Bool)
  | invalidKey
deriving DecidableEq, Repr

/-- A durable-store write attempt (`fs.writeFileSync` of the GPS document),
tagged with whether the write succeeded. -/
inductive WriteEvent where
  | gps (d : GPSData) (ok : Bool)
deriving DecidableEq, Repr

/-- The `/receivedata` endpoint (lines 146-178) behind `checkKey`
(lines 139-144): reject with 403 when the `key` query parameter differs from
the configured API key; otherwise build the packet, run `saveLatestGPS`, and
answer `{status:'ok', fix}`. `writeOk` tells whether the `writeFileSync`
inside `saveLatestGPS` succeeds; its failure is caught and only logged, so
neither the response nor the state depends on it. Result: response, new
in-memory state, durable writes attempted. -/
def receivedata (apiKey : Option String) (q : Query) (mem : Option GPSData)
    (now : ℕ) (writeOk : Bool) : IngestResponse × Option GPSData × List WriteEvent :=
  if q.key ≠ apiKey then (.invalidKey, mem, [])
  else
    let d := saveLatestGPS mem (packetOf q mem) now
    (.ok (isFixOf q), some d, [.gps d writeOk])

/-- A latest-gps document on disk: either the old format (no `fix` field)
or the extended format. -/
inductive StoredDoc where
  | oldFormat (lat lng speed alt : JsVal) (timestamp : Option ℕ)
  | newFormat (d : GPSData)
deriving DecidableEq, Repr

/-- `loadLatestGPS` (lines 100-128): prefer the in-memory state; otherwise
hydrate from the stored document, upgrading the old format (assumed to have
been a fix snapshot); `none` when neither exists. -/
def loadLatestGPS (mem : Option GPSData) (file : Option StoredDoc) (now : ℕ) :
    Option GPSData :=
  match mem with
  | some d => some d
  | none =>
    match file with
    | none => none
    | some (.newFormat d) => some d
    | some (.oldFormat lat lng speed alt ts) =>
        some { lat := lat, lng := lng, speed := speed, alt := alt
               fix := true, sats := .null, hdop := .null
               lastPacketTimestamp := ts.getD now
               lastFixTimestamp := ts, timestamp := ts }

/-- Response of `/api/latest-gps`: the document, or 404 with an error
body. -/
inductive LatestResponse where
  | json (d : GPSData)
  | notFound
deriving DecidableEq, Repr

/-- The `/api/latest-gps` endpoint (lines 180-187). -/
def latestGps (mem : Option GPSData) (file : Option StoredDoc) (now : ℕ) :
    LatestResponse :=
  match loadLatestGPS mem file now with
  | some d => .json d
  | none => .notFound

/-! ### Viewer-side staleness classification (Server/public/tracker.js) -/

/-- The connection status shown by the tracker UI. -/
inductive ConnStatus where
  | offline
  | noSignal
  | online
deriving DecidableEq, Repr

/-- `updateConnectionStatus` (tracker.js, lines 312-344): stale when a last
packet time is known and more than 60000 ms old; Offline when not connected
or stale; otherwise No GPS Signal without a fix, Online with one. JS date
arithmetic is signed, hence the `ℤ` subtraction. -/
def updateConnectionStatus (isConnected : Bool) (lastPacketTime : Option ℕ)
    (hasFix : Bool) (now : ℕ) : ConnStatus :=
  let stale := match lastPacketTime with
    | some t => decide ((now : ℤ) - (t : ℤ) > 60000)
    | none => false
  if !isConnected || stale then .offline
  else if isConnected && !hasFix then .noSignal
  else .online

/-- The classification `updateGPSData` (tracker.js, lines 185-204) feeds to
`updateConnectionStatus` on a fresh poll: a missing document clears
`isConnected`; a present one sets `isConnected`, `hasFix := !!data.fix` and
`lastPacketTime` from the document. -/
def classifyFix (fix : Option GPSData) (now : ℕ) : ConnStatus :=
  match fix with
  | none => updateConnectionStatus false none false now
  | some d => updateConnectionStatus true (some d.lastPacketTimestamp) d.fix now

/-! ### WiFi credential list (Server/index.js `/wifi` handlers) -/

/-- A WiFi credential pair, as stored in wifi.json and on the device. -/
structure WifiNetwork where
  ssid : String
  password : String
deriving DecidableEq, Repr

/-- The `PUT /wifi` handler body (lines 241-256): `findIndex` on the ssid;
replace that entry's password when found, else append `{ssid, password}`. -/
def upsertWifi (list : List WifiNetwork) (ssid password : String) :
    List WifiNetwork :=
  match list with
  | [] => [{ ssid := ssid, password := password }]
  | n :: rest =>
    if n.ssid = ssid then { n with password := password } :: rest
    else n :: upsertWifi rest ssid password

/-! ### Device connectivity (ESP32/client.c) -/

/-- The hardcoded fallback network of client.c. -/
def defaultSSID : String := "TP-Link_2.4GHz"

/-- An observable action of the device connectivity code: a `tryConnect`
attempt on an ssid, or the HTTP GET of the credential list emitted by
`fetchWifiList`. -/
inductive DevEvent where
  | tryConnect (ssid : String)
  | fetchWifi
deriving DecidableEq, Repr

/-- Device connectivity flags: WiFi status and the `inBackoff` global. -/
structure DevState where
  connected : Bool
  inBackoff : Bool
deriving DecidableEq, Repr

/-- The `for (auto &net : dynamicNetworks)` loop of `connectWiFi`: try each
saved network in order until one connects, recording every attempt. `ok`
is the oracle saying whether `tryConnect` on a given ssid succeeds. -/
def tryList (nets : List WifiNetwork) (ok : String → Bool) :
    Bool × List DevEvent :=
  match nets with
  | [] => (false, [])
  | n :: rest =>
    if ok n.ssid then (true, [.tryConnect n.ssid])
    else
      let r := tryList rest ok
      (r.1, .tryConnect n.ssid :: r.2)

/-- `connectWiFi` (client.c, lines 129-148): return at once when already
connected; otherwise try every dynamic network and then the hardcoded
fallback; only a fallback success calls `fetchWifiList` (which, being
connected, emits the fetch); total failure enters backoff. -/
def connectWiFi (st : DevState) (nets : List WifiNetwork) (ok : String → Bool) :
    DevState × List DevEvent :=
  if st.connected then (st, [])
  else
    let r := tryList nets ok
    if r.1 then ({ connected := true, inBackoff := false }, r.2)
    else if ok defaultSSID then
      ({ connected := true, inBackoff := false },
        r.2 ++ [.tryConnect defaultSSID, .fetchWifi])
    else
      ({ connected := false, inBackoff := true },
        r.2 ++ [.tryConnect defaultSSID])

/-- `fetchWifiList` (client.c, lines 81-108) as a trace: it returns without
emitting anything unless WiFi is connected, else it emits the credential
fetch. -/
def fetchWifiListEvents (st : DevState) : List DevEvent :=
  if st.connected then [.fetchWifi] else []

/-- The boot sequence `setup` (client.c, lines 150-162) after mounting and
loading: `connectWiFi()` followed by an unconditional `fetchWifiList()`. -/
def setup (nets : List WifiNetwork) (ok : String → Bool) :
    DevState × List DevEvent :=
  let r := connectWiFi { connected := false, inBackoff := false } nets ok
  (r.1, r.2 ++ fetchWifiListEvents r.1)

/-! ### Sequences of reconcile calls -/

/-- Run `saveLatestGPS` over a sequence of (packet, receipt-time) pairs,
starting from a given (possibly absent) state. -/
def runReconcile (st : Option GPSData) (ps : List (Packet × ℕ)) :
    Option GPSData :=
  match ps with
  | [] => st
  | (p, t) :: rest => runReconcile (some (saveLatestGPS st p t)) rest

/-- The FixState invariant of the spec: `lastFixAt ≤ lastPacketAt`. -/
def fixInvariant (d : GPSData) : Prop :=
  ∀ t ∈ d.lastFixTimestamp, t ≤ d.lastPacketTimestamp

instance (d : GPSData) : Decidable (fixInvariant d) := by
  unfold fixInvariant; infer_instance

/-! ### Helper lemmas -/

lemma saveLatestGPS_lastPacket (prior : Option GPSData) (p : Packet) (now : ℕ) :
    (saveLatestGPS prior p now).lastPacketTimestamp = now := by
  cases prior <;> cases hf : p.fix <;>
    simp [saveLatestGPS, bootstrapGPSData, hf]

lemma saveLatestGPS_lastFix (prior : Option GPSData) (p : Packet) (now : ℕ) :
    (saveLatestGPS prior p now).lastFixTimestamp
      = (if p.fix then some now else (prior.map (·.lastFixTimestamp)).getD none) := by
  cases prior <;> cases hf : p.fix <;>
    simp [saveLatestGPS, bootstrapGPSData, hf]

/-- One reconcile step preserves the `lastFixAt ≤ lastPacketAt` invariant,
provided the receipt time is no earlier than the prior packet's. -/
lemma fixInvariant_step (prior : Option GPSData) (p : Packet) (now : ℕ)
    (h : ∀ d ∈ prior, fixInvariant d ∧ d.lastPacketTimestamp ≤ now) :
    fixInvariant (saveLatestGPS prior p now) := by
  intro t ht
  rw [saveLatestGPS_lastFix] at ht
  rw [saveLatestGPS_lastPacket]
  cases hf : p.fix with
  | true => simp [hf] at ht; omega
  | false =>
    cases prior with
    | none => simp [hf] at ht
    | some d =>
      simp [hf] at ht
      obtain ⟨hinv, hle⟩ := h d rfl
      exact le_trans (hinv t ht) hle

/-- Invariant propagation along a run with non-decreasing receipt times. -/
lemma runReconcile_inv_aux (ps : List (Packet × ℕ)) :
    ∀ st : GPSData, fixInvariant st →
    (∀ q ∈ ps.head?, st.lastPacketTimestamp ≤ q.2) →
    List.Chain' (fun a b : Packet × ℕ => a.2 ≤ b.2) ps →
    ∀ d, runReconcile (some st) ps = some d → fixInvariant d := by
  induction ps with
  | nil =>
    intro st hst _ _ d hd
    simp [runReconcile] at hd
    exact hd ▸ hst
  | cons q rest ih =>
    intro st hst hhead hchain d hd
    obtain ⟨p, t⟩ := q
    simp only [runReconcile] at hd
    have hle : st.lastPacketTimestamp ≤ t := hhead (p, t) rfl
    have hst' : fixInvariant (saveLatestGPS (some st) p t) :=
      fixInvariant_step (some st) p t (by
        intro e he
        cases he
        exact ⟨hst, hle⟩)
    refine ih (saveLatestGPS (some st) p t) hst' ?_ hchain.tail d hd
    intro q' hq'
    rw [saveLatestGPS_lastPacket]
    cases rest with
    | nil => simp at hq'
    | cons q2 rest2 =>
      simp at hq'
      exact hq' ▸ (List.chain'_cons.mp hchain).1

lemma tryList_fst (nets : List WifiNetwork) (ok : String → Bool) :
    (tryList nets ok).1 = nets.any (fun n => ok n.ssid) := by
  induction nets with
  | nil => simp [tryList]
  | cons n rest ih =>
    by_cases hn : ok n.ssid = true <;> simp [tryList, hn, ih]

lemma tryList_no_fetch (nets : List WifiNetwork) (ok : String → Bool) :
    DevEvent.fetchWifi ∉ (tryList nets ok).2 := by
  induction nets with
  | nil => simp [tryList]
  | cons n rest ih =>
    by_cases hn : ok n.ssid = true <;> simp [tryList, hn, ih]

/-! ### Theorems -/

/-- C1: for every prior state (including the absent/bootstrap case) and
every packet, `saveLatestGPS` with `fix = true` overwrites `lat`, `lng`,
`speed`, `alt` with exactly the packet's values and sets
`lastFixTimestamp` to the receipt time; with `fix = false` it leaves the
four position fields at the prior state's values (`null` in the bootstrap
case). -/
theorem saveLatestGPS_position_update (prior : Option GPSData) (p : Packet)
    (now : ℕ) :
    (saveLatestGPS prior p now).lat
        = (if p.fix then p.lat else (prior.map (·.lat)).getD .null)
  ∧ (saveLatestGPS prior p now).lng
        = (if p.fix then p.lng else (prior.map (·.lng)).getD .null)
  ∧ (saveLatestGPS prior p now).speed
        = (if p.fix then p.speed else (prior.map (·.speed)).getD .null)
  ∧ (saveLatestGPS prior p now).alt
        = (if p.fix then p.alt else (prior.map (·.alt)).getD .null)
  ∧ (saveLatestGPS prior p now).lastFixTimestamp
        = (if p.fix then some now
           else (prior.map (·.lastFixTimestamp)).getD none) := by
  cases prior <;> cases hf : p.fix <;>
    simp [saveLatestGPS, bootstrapGPSData, hf]

/-- C2: the viewer classifies an absent fix document as Offline; a present
one as Offline when the last packet is over 60 s old, otherwise as
No GPS Signal without a fix and Online with one. -/
theorem classifyFix_staleness :
    (∀ now, classifyFix none now = .offline)
  ∧ (∀ (d : GPSData) (now : ℕ), classifyFix (some d) now =
      if (now : ℤ) - (d.lastPacketTimestamp : ℤ) > 60000 then .offline
      else if d.fix then .online else .noSignal) := by
  constructor
  · intro now
    simp [classifyFix, updateConnectionStatus]
  · intro d now
    simp only [classifyFix, updateConnectionStatus]
    by_cases hs : (now : ℤ) - (d.lastPacketTimestamp : ℤ) > 60000 <;>
      cases hf : d.fix <;> simp [hs, hf]

/-- C8: with no in-memory state and no durable document, `/api/latest-gps`
answers the explicit 404 result, never a JSON fix record. -/
theorem latestGps_no_data_notFound (now : ℕ) :
    latestGps none none now = .notFound
  ∧ ∀ d, latestGps none none now ≠ .json d := by
  refine ⟨rfl, ?_⟩
  intro d h
  exact LatestResponse.noConfusion h

/-- C9: `saveLatestGPS` overwrites `sats`/`hdop` exactly when the packet
carries the field (`some v`, including `some .null` for an empty query
value); when the field is absent (`none`) the prior stored value is carried
forward unchanged (`null` in the bootstrap case). -/
theorem saveLatestGPS_sats_hdop_presence (prior : Option GPSData) (p : Packet)
    (now : ℕ) :
    (saveLatestGPS prior p now).sats
        = p.sats.getD ((prior.map (·.sats)).getD .null)
  ∧ (saveLatestGPS prior p now).hdop
        = p.hdop.getD ((prior.map (·.hdop)).getD .null) := by
  obtain ⟨pf, plat, plng, pspeed, palt, psats, phdop⟩ := p
  cases prior <;> cases psats <;> cases phdop <;> cases pf <;>
    simp [saveLatestGPS, bootstrapGPSData]

/-- C5 counterexample: at boot, `setup` connects via a dynamically-learned
network (the fallback is never even attempted) and a credential-list fetch
is nevertheless emitted, because `setup` calls `fetchWifiList()`
unconditionally after `connectWiFi()`. -/
theorem setup_dynamic_success_fetches_counterexample :
    (setup [{ ssid := "Home", password := "pw" }]
        (fun s => s == "Home")).1.connected = true
  ∧ DevEvent.tryConnect defaultSSID
      ∉ (setup [{ ssid := "Home", password := "pw" }]
          (fun s => s == "Home")).2
  ∧ DevEvent.fetchWifi
      ∈ (setup [{ ssid := "Home", password := "pw" }]
          (fun s => s == "Home")).2 := by
  refine ⟨rfl, by decide, by decide⟩

/-- C5 amended: within `connectWiFi` — the only path used for later
reconnections — a credential-list fetch is emitted exactly when the device
was disconnected, every dynamic network failed, and the hardcoded fallback
succeeded; but the boot sequence `setup` additionally calls `fetchWifiList`
unconditionally, so at boot a fetch is emitted after every successful
connection, including one via a dynamically-learned network. -/
theorem connectWiFi_fetch_only_on_fallback (st : DevState)
    (nets : List WifiNetwork) (ok : String → Bool) :
    (DevEvent.fetchWifi ∈ (connectWiFi st nets ok).2
      ↔ st.connected = false ∧ (∀ n ∈ nets, ok n.ssid = false)
        ∧ ok defaultSSID = true)
  ∧ (DevEvent.fetchWifi ∈ (setup nets ok).2
      ↔ (setup nets ok).1.connected = true) := by
  have hconn : ∀ s : DevState,
      DevEvent.fetchWifi ∈ (connectWiFi s nets ok).2
        ↔ s.connected = false ∧ (∀ n ∈ nets, ok n.ssid = false)
          ∧ ok defaultSSID = true := by
    intro s
    by_cases hc : s.connected = true
    · simp [connectWiFi, hc]
    · simp only [Bool.not_eq_true] at hc
      by_cases hany : nets.any (fun n => ok n.ssid) = true
      · have : ¬ ∀ n ∈ nets, ok n.ssid = false := by
          simp only [List.any_eq_true] at hany
          obtain ⟨n, hn, hok⟩ := hany
          intro hall
          exact absurd hok (by simp [hall n hn])
        simp [connectWiFi, hc, tryList_fst, hany, tryList_no_fetch, this]
      · have hall : ∀ n ∈ nets, ok n.ssid = false := by
          simpa [List.any_eq_false] using hany
        by_cases hdef : ok defaultSSID = true
        · simp [connectWiFi, hc, tryList_fst, hany, tryList_no_fetch, hdef]
          exact hall
        · simp [connectWiFi, hc, tryList_fst, hany, tryList_no_fetch,
            hall, hdef]
  refine ⟨hconn st, ?_⟩
  by_cases hany : nets.any (fun n => ok n.ssid) = true
  · simp [setup, connectWiFi, tryList_fst, hany, fetchWifiListEvents]
  · by_cases hdef : ok defaultSSID = true <;>
      simp [setup, connectWiFi, tryList_fst, hany, fetchWifiListEvents,
        hdef, tryList_no_fetch]

/-- Witness for C5's amended statement: with no dynamic networks and a
reachable fallback, `connectWiFi` from the disconnected state emits the
fetch. -/
theorem connectWiFi_fetch_only_on_fallback_witness :
    DevEvent.fetchWifi
      ∈ (connectWiFi { connected := false, inBackoff := false } []
          (fun s => s == defaultSSID)).2 :=
  ((connectWiFi_fetch_only_on_fallback
      { connected := false, inBackoff := false } []
      (fun s => s == defaultSSID)).1).mpr
    ⟨rfl, by simp, by simp⟩

/-- C4 counterexample: an authenticated request with `fix=true` and the
`lat` parameter missing is not rejected with 400 — the response is
`{status:'ok', fix:true}`, the packet is persisted, and the stored `lat` is
the NaN produced by `parseFloat(undefined)`, a silent sentinel. -/
theorem receivedata_malformed_accepted_counterexample :
    (receivedata (some "k")
      { key := some "k", fix := some "true", lat := none,
        lng := some (.numStr 1), speed := some (.numStr 2),
        alt := some (.numStr 3), sats := none, hdop := none }
      none 5 true).1 = .ok true
  ∧ (receivedata (some "k")
      { key := some "k", fix := some "true", lat := none,
        lng := some (.numStr 1), speed := some (.numStr 2),
        alt := some (.numStr 3), sats := none, hdop := none }
      none 5 true).2.1
      = some { lat := .nan, lng := .num 1, speed := .num 2, alt := .num 3
               fix := true, sats := .null, hdop := .null
               lastPacketTimestamp := 5, lastFixTimestamp := some 5
               timestamp := some 5 }
  ∧ (receivedata (some "k")
      { key := some "k", fix := some "true", lat := none,
        lng := some (.numStr 1), speed := some (.numStr 2),
        alt := some (.numStr 3), sats := none, hdop := none }
      none 5 true).2.2 ≠ [] := by
  refine ⟨rfl, by decide, by decide⟩

/-- C4 amended: the `/receivedata` endpoint performs no numeric validation.
Every authenticated request — malformed fix packets included — is
acknowledged with `{status:'ok'}` and persisted; on a fix packet each
position field is stored as the raw `parseFloat` result, which is NaN
whenever the query field is missing, empty, or malformed. -/
theorem receivedata_no_numeric_validation (apiKey : Option String)
    (q : Query) (mem : Option GPSData) (now : ℕ) (writeOk : Bool)
    (h : q.key = apiKey) :
    (receivedata apiKey q mem now writeOk).1 = .ok (isFixOf q)
  ∧ (receivedata apiKey q mem now writeOk).2.1
      = some (saveLatestGPS mem (packetOf q mem) now)
  ∧ (isFixOf q = true →
      (saveLatestGPS mem (packetOf q mem) now).lat = parseFloatQ q.lat
      ∧ (saveLatestGPS mem (packetOf q mem) now).lng = parseFloatQ q.lng
      ∧ (saveLatestGPS mem (packetOf q mem) now).speed = parseFloatQ q.speed
      ∧ (saveLatestGPS mem (packetOf q mem) now).alt = parseFloatQ q.alt)
  ∧ parseFloatQ none = .nan
  ∧ parseFloatQ (some .malformed) = .nan
  ∧ parseFloatQ (some .empty) = .nan := by
  refine ⟨by simp [receivedata, h], by simp [receivedata, h], ?_, rfl, rfl, rfl⟩
  intro hfix
  have hp : (packetOf q mem).fix = true := by simp [packetOf, hfix]
  refine ⟨?_, ?_, ?_, ?_⟩ <;>
    cases mem <;> simp [saveLatestGPS, bootstrapGPSData, hp, packetOf, hfix]

/-- Witness for C4's amended statement: a concrete authenticated request
with a missing `lat` is acknowledged with ok and stored with a NaN `lat`. -/
theorem receivedata_no_numeric_validation_witness :
    (receivedata (some "k")
      { key := some "k", fix := some "1", lat := none,
        lng := some (.numStr 1), speed := some (.malformed),
        alt := some (.numStr 3), sats := none, hdop := none }
      none 9 false).1 = .ok true :=
  (receivedata_no_numeric_validation (some "k") _ none 9 false rfl).1

/-- C10: upserting `{A, x}` then `{A, y}` into the empty credential list
gives the one-element list `[{A, y}]`; in general `PUT /wifi` appends when
the ssid is absent and rewrites the first matching entry's password when it
is present (last-write-wins on the ssid key). -/
theorem upsertWifi_last_write_wins :
    upsertWifi (upsertWifi [] "A" "x") "A" "y"
        = [{ ssid := "A", password := "y" }]
  ∧ (∀ (l : List WifiNetwork) (ssid pw : String), (∀ n ∈ l, n.ssid ≠ ssid) →
      upsertWifi l ssid pw = l ++ [{ ssid := ssid, password := pw }])
  ∧ (∀ (l1 : List WifiNetwork) (n : WifiNetwork) (l2 : List WifiNetwork)
        (ssid pw : String), (∀ m ∈ l1, m.ssid ≠ ssid) → n.ssid = ssid →
      upsertWifi (l1 ++ n :: l2) ssid pw
        = l1 ++ { n with password := pw } :: l2) := by
  refine ⟨by simp [upsertWifi], ?_, ?_⟩
  · intro l ssid pw habs
    induction l with
    | nil => simp [upsertWifi]
    | cons n rest ih =>
      have hn : n.ssid ≠ ssid := habs n (List.mem_cons_self n rest)
      simp only [upsertWifi, if_neg hn, List.cons_append, List.cons.injEq,
        true_and]
      exact ih fun m hm => habs m (List.mem_cons_of_mem n hm)
  · intro l1 n l2 ssid pw habs hn
    induction l1 with
    | nil => simp [upsertWifi, hn]
    | cons m rest ih =>
      have hm : m.ssid ≠ ssid := habs m (List.mem_cons_self m rest)
      simp only [List.cons_append, upsertWifi, if_neg hm, List.cons.injEq,
        true_and]
      exact ih fun x hx => habs x (List.mem_cons_of_mem m hx)

/-- C3: any sequence of `saveLatestGPS` calls with non-decreasing receipt
times, starting from the bootstrap (absent) state, yields a state satisfying
`lastFixTimestamp ≤ lastPacketTimestamp`: every packet stamps
`lastPacketTimestamp`, while `lastFixTimestamp` moves only on fix packets,
which stamp both with the same instant. -/
theorem runReconcile_fixInvariant (ps : List (Packet × ℕ))
    (hmono : List.Chain' (fun a b : Packet × ℕ => a.2 ≤ b.2) ps)
    (d : GPSData) (hrun : runReconcile none ps = some d) :
    fixInvariant d := by
  cases ps with
  | nil => simp [runReconcile] at hrun
  | cons q rest =>
    obtain ⟨p, t⟩ := q
    simp only [runReconcile] at hrun
    have hst : fixInvariant (saveLatestGPS none p t) :=
      fixInvariant_step none p t (by intro e he; cases he)
    refine runReconcile_inv_aux rest (saveLatestGPS none p t) hst ?_
      hmono.tail d hrun
    intro q' hq'
    rw [saveLatestGPS_lastPacket]
    cases rest with
    | nil => simp at hq'
    | cons q2 rest2 =>
      simp at hq'
      exact hq' ▸ (List.chain'_cons.mp hmono).1

/-- Witness for C3: a fix packet at time 10 followed by a no-fix packet at
time 20 satisfies the invariant. -/
theorem runReconcile_fixInvariant_witness :
    fixInvariant
      { lat := .num 1, lng := .num 2, speed := .num 3, alt := .num 4
        fix := false, sats := .num 5, hdop := .null
        lastPacketTimestamp := 20, lastFixTimestamp := some 10
        timestamp := some 10 } :=
  runReconcile_fixInvariant
    [({ fix := true, lat := .num 1, lng := .num 2, speed := .num 3,
        alt := .num 4, sats := none, hdop := none }, 10),
     ({ fix := false, lat := .null, lng := .null, speed := .null,
        alt := .null, sats := some (.num 5), hdop := none }, 20)]
    (List.chain'_cons.mpr ⟨by decide, List.chain'_singleton _⟩) _ (by decide)

/-- C6: a `/receivedata` request whose `key` query parameter differs from
the configured API key is rejected with 403, with the in-memory state
unchanged and no durable write attempted. -/
theorem receivedata_rejects_bad_key (apiKey : Option String) (q : Query)
    (mem : Option GPSData) (now : ℕ) (writeOk : Bool)
    (h : q.key ≠ apiKey) :
    receivedata apiKey q mem now writeOk = (.invalidKey, mem, []) := by
  simp [receivedata, h]

/-- Witness for C6: a wrong key against a configured secret is rejected. -/
theorem receivedata_rejects_bad_key_witness :
    receivedata (some "secret")
      { key := some "wrong", fix := some "true", lat := some (.numStr 1),
        lng := some (.numStr 2), speed := some (.numStr 3),
        alt := some (.numStr 4), sats := none, hdop := none }
      none 0 true = (.invalidKey, none, []) :=
  receivedata_rejects_bad_key (some "secret") _ none 0 true (by decide)

/-- C7: on an authenticated request whose durable write fails, the endpoint
still answers `{status:'ok', fix}`, the in-memory state keeps the newly
reconciled value (identical to the successful-write run, no rollback), and
a subsequent `/api/latest-gps` read serves that in-memory state. -/
theorem receivedata_write_failure_still_ok (apiKey : Option String)
    (q : Query) (mem : Option GPSData) (now : ℕ) (h : q.key = apiKey) :
    (receivedata apiKey q mem now false).1 = .ok (isFixOf q)
  ∧ (receivedata apiKey q mem now false).2.1
      = some (saveLatestGPS mem (packetOf q mem) now)
  ∧ (receivedata apiKey q mem now false).1
      = (receivedata apiKey q mem now true).1
  ∧ (receivedata apiKey q mem now false).2.1
      = (receivedata apiKey q mem now true).2.1
  ∧ (∀ (file : Option StoredDoc) (now2 : ℕ),
      latestGps (receivedata apiKey q mem now false).2.1 file now2
        = .json (saveLatestGPS mem (packetOf q mem) now)) := by
  refine ⟨?_, ?_, ?_, ?_, ?_⟩ <;>
    simp [receivedata, h, latestGps, loadLatestGPS]

/-- Witness for C7: a concrete authenticated fix packet whose durable write
fails is still acknowledged with ok. -/
theorem receivedata_write_failure_still_ok_witness :
    (receivedata (some "k")
      { key := some "k", fix := some "true", lat := some (.numStr 1),
        lng := some (.numStr 2), speed := some (.numStr 3),
        alt := some (.numStr 4), sats := none, hdop := none }
      none 7 false).1 = .ok true :=
  (receivedata_write_failure_still_ok (some "k") _ none 7 rfl).1

/-- Witness for C10: appending a fresh ssid to a concrete list via the
general append clause. -/
theorem upsertWifi_last_write_wins_witness :
    upsertWifi [{ ssid := "B", password := "z" }] "A" "x"
      = [{ ssid := "B", password := "z" }, { ssid := "A", password := "x" }] :=
  upsertWifi_last_write_wins.2.1 [{ ssid := "B", password := "z" }] "A" "x"
    (by decide)

end GpsFollower
